import Mathlib

deriving instance DecidableEq for Except

/-!
Shallow embedding of the weather-record normalization and CRUD/fetch flow of
the repository (Express router `src/routes/weatherRoutes.js`, zod schema
`src/validation.js`, normalizer `src/weatherService.js`, mongoose model
`src/models/weather.js`).

Conventions of the embedding:
* JavaScript values reaching the validation layer are modelled by the `Json`
  inductive; JS numbers are modelled by `Rat` (no NaN/Infinity arise in the
  claims), JS `Date` instances by `Json.date (some ms)` for a valid date and
  `Json.date none` for an Invalid Date.
* Request bodies are association lists `List (String × Json)` (the result of
  `express.json()` body parsing).
* The MongoDB collection is a `StoreState`: a list of stored documents plus a
  fresh-id counter.  ObjectIds are modelled as the numeric value of their
  24-hex-digit string form; route `:id` parameters arrive as raw strings and
  are cast by `parseObjectId` (mongoose CastError when the cast fails).
* The wall clock is passed explicitly (`now`) instead of `Date.now()`.
* Statuses follow the app: `http-errors` carries its status (404 NotFound,
  500 missing key); ZodError, CastError and mongoose ValidationError reach
  Express's default error handler (the app installs none) and appear as 500.
* The external OpenWeather call of `fetchWeather` is split into the provider's
  response (a `ProviderData`, supplied as a function of the queried city) and
  the pure normalization of that response performed by `fetchWeather`'s
  returned object literal.
-/

namespace WeatherApp

/-- Model of a JavaScript value as seen by the zod validation layer.
`date none` models an Invalid Date instance. -/
inductive Json where
  | null
  | bool (b : Bool)
  | num (q : Rat)
  | str (s : String)
  | date (ms : Option Int)
  | arr (elems : List Json)
  | obj (fields : List (String × Json))

/-- JavaScript truthiness of a value (used by `if (manual)` in the router). -/
def Json.truthy : Json → Bool
  | .null => false
  | .bool b => b
  | .num q => q != 0
  | .str s => s != ""
  | .date _ => true
  | .arr _ => true
  | .obj _ => true

/-- Field access `j[k]` on an object, `none` otherwise. -/
def Json.get (j : Json) (k : String) : Option Json :=
  match j with
  | .obj fs => fs.lookup k
  | _ => none

/-- `coordinates` sub-object of the canonical record (`z.object({lon,lat})`). -/
structure Coordinates where
  lon : Rat
  lat : Rat
deriving DecidableEq

/-- The validated canonical weather record: the output type of
`weatherSchema.parse` (src/validation.js).  `humidity`/`pressure` stay JS
numbers that the schema has checked to be integral. -/
structure WeatherRecord where
  city : String
  country : String
  coordinates : Coordinates
  temp : Rat
  feelsLike : Rat
  humidity : Rat
  pressure : Rat
  windSpeed : Rat
  condition : String
  description : String
  fetchedAt : Int
deriving DecidableEq

/-! ### zod field parsers (src/validation.js) -/

/-- `z.string()` applied to an (optional) object member. -/
def jStr : Option Json → Option String
  | some (.str s) => some s
  | _ => none

/-- `z.number()` applied to an (optional) object member. -/
def jNum : Option Json → Option Rat
  | some (.num q) => some q
  | _ => none

/-- `z.number().int()` applied to an (optional) object member. -/
def jInt (o : Option Json) : Option Rat :=
  match jNum o with
  | some q => if q.isInt then some q else none
  | none => none

/-- `z.date()` applied to an (optional) object member: a Date instance whose
time value is not NaN. -/
def jDate : Option Json → Option Int
  | some (.date (some t)) => some t
  | _ => none

/-- `z.string().min(2)` applied to an (optional) object member. -/
def jCountry (o : Option Json) : Option String :=
  match jStr o with
  | some s => if 2 ≤ s.length then some s else none
  | none => none

/-- `z.object({lon: z.number(), lat: z.number()})` for the `coordinates`
member; errors carry zod issue paths. -/
def parseCoords (o : Option Json) : Except (List String) Coordinates :=
  match o with
  | some (.obj cfs) =>
    match jNum (cfs.lookup "lon"), jNum (cfs.lookup "lat") with
    | some lon, some lat => .ok ⟨lon, lat⟩
    | none, some _ => .error ["coordinates.lon"]
    | some _, none => .error ["coordinates.lat"]
    | none, none => .error ["coordinates.lon", "coordinates.lat"]
  | _ => .error ["coordinates"]

/-- The issues the `coordinates` member contributes to a failing parse. -/
def coordErrsOf (o : Option Json) : List String :=
  match parseCoords o with
  | .error es => es
  | .ok _ => []

/-- The issue list a failing `weatherSchema.parse` reports on an object
payload, in shape order. -/
def weatherFieldErrors (fs : List (String × Json)) : List String :=
  (if (jStr (fs.lookup "city")).isNone then ["city"] else [])
  ++ (if (jCountry (fs.lookup "country")).isNone then ["country"] else [])
  ++ coordErrsOf (fs.lookup "coordinates")
  ++ (if (jNum (fs.lookup "temp")).isNone then ["temp"] else [])
  ++ (if (jNum (fs.lookup "feelsLike")).isNone then ["feelsLike"] else [])
  ++ (if (jInt (fs.lookup "humidity")).isNone then ["humidity"] else [])
  ++ (if (jInt (fs.lookup "pressure")).isNone then ["pressure"] else [])
  ++ (if (jNum (fs.lookup "windSpeed")).isNone then ["windSpeed"] else [])
  ++ (if (jStr (fs.lookup "condition")).isNone then ["condition"] else [])
  ++ (if (jStr (fs.lookup "description")).isNone then ["description"] else [])
  ++ (if (jDate (fs.lookup "fetchedAt")).isNone then ["fetchedAt"] else [])

/-- `weatherSchema.parse` (src/validation.js): a strict-type zod object parse
in default strip mode.  Succeeds with the typed record exactly when every
field parses; otherwise throws a ZodError carrying the offending paths; a
non-object payload fails with the root path. -/
def weatherSchema_parse (j : Json) : Except (List String) WeatherRecord :=
  match j with
  | .obj fs =>
    match jStr (fs.lookup "city"), jCountry (fs.lookup "country"),
          parseCoords (fs.lookup "coordinates"),
          jNum (fs.lookup "temp"), jNum (fs.lookup "feelsLike"),
          jInt (fs.lookup "humidity"), jInt (fs.lookup "pressure"),
          jNum (fs.lookup "windSpeed"), jStr (fs.lookup "condition"),
          jStr (fs.lookup "description"), jDate (fs.lookup "fetchedAt") with
    | some city, some country, .ok coords, some temp, some fl, some hum,
      some pres, some ws, some cond, some desc, some fa =>
        .ok ⟨city, country, coords, temp, fl, hum, pres, ws, cond, desc, fa⟩
    | _, _, _, _, _, _, _, _, _, _, _ => .error (weatherFieldErrors fs)
  | _ => .error [""]

/-! ### Weather Normalizer (src/weatherService.js) -/

/-- The fields of an OpenWeather current-weather response that `fetchWeather`
reads; each optional chain that can be absent is an `Option`.  `dt` is the
provider's own timestamp, which `fetchWeather` never reads. -/
structure ProviderData where
  name : String
  sys_country : Option String
  coord_lon : Option Rat
  coord_lat : Option Rat
  main_temp : Option Rat
  main_feels_like : Option Rat
  main_humidity : Option Rat
  main_pressure : Option Rat
  wind_speed : Option Rat
  weather0_main : Option String
  weather0_description : Option String
  dt : Option Int
deriving DecidableEq

/-- The object literal returned by `fetchWeather` (src/weatherService.js),
normalizing a provider response; `now` is the wall clock at normalization
(`new Date()`). -/
def fetchWeather (d : ProviderData) (now : Int) : Json :=
  .obj [("city", .str d.name),
        ("country", .str (d.sys_country.getD "NA")),
        ("coordinates", .obj [("lon", .num (d.coord_lon.getD 0)),
                              ("lat", .num (d.coord_lat.getD 0))]),
        ("temp", .num (d.main_temp.getD 0)),
        ("feelsLike", .num (d.main_feels_like.getD 0)),
        ("humidity", .num (d.main_humidity.getD 0)),
        ("pressure", .num (d.main_pressure.getD 0)),
        ("windSpeed", .num (d.wind_speed.getD 0)),
        ("condition", .str (d.weather0_main.getD "Unknown")),
        ("description", .str (d.weather0_description.getD "Unknown")),
        ("fetchedAt", .date (some now))]

/-! ### Record Store Adapter (mongoose model, src/models/weather.js) -/

/-- A persisted document: the validated data plus the store-assigned id and
the `timestamps: true` bookkeeping. -/
structure StoredRecord where
  id : Nat
  data : WeatherRecord
  createdAt : Int
  updatedAt : Int
deriving DecidableEq

/-- The document collection plus the fresh-ObjectId source. -/
structure StoreState where
  docs : List StoredRecord
  nextId : Nat
deriving DecidableEq

/-- Hex digit test for ObjectId casting. -/
def isHexChar (c : Char) : Bool :=
  c.isDigit || ('a' ≤ c && c ≤ 'f') || ('A' ≤ c && c ≤ 'F')

/-- Mongoose's ObjectId format check: 24 hex characters. -/
def isValidObjectId (s : String) : Bool :=
  s.length == 24 && s.toList.all isHexChar

/-- Numeric value of a hex digit. -/
def hexVal (c : Char) : Nat :=
  if c.isDigit then c.toNat - 48
  else if 'a' ≤ c && c ≤ 'f' then c.toNat - 87
  else c.toNat - 55

/-- Mongoose's cast of a route `:id` string to an ObjectId: `none` is the
CastError case for a malformed id. -/
def parseObjectId (s : String) : Option Nat :=
  if isValidObjectId s then
    some (s.toList.foldl (fun a c => 16 * a + hexVal c) 0)
  else none

/-- Mongoose document validation run on write (`required: true` paths): for
string paths `required` rejects the empty string, so `city` and `country`
must be non-empty; the numeric `coordinates` paths are always present in a
parsed record. -/
def mongooseRequiredOk (r : WeatherRecord) : Bool :=
  r.city != "" && r.country != ""

/-- `Weather.create(parsed)`: validates, then inserts with a fresh id and
`createdAt = updatedAt = now`.  `none` models the thrown mongoose
ValidationError (nothing persisted). -/
def Weather_create (st : StoreState) (now : Int) (r : WeatherRecord) :
    Option StoredRecord × StoreState :=
  if mongooseRequiredOk r then
    let d : StoredRecord := ⟨st.nextId, r, now, now⟩
    (some d, ⟨st.docs ++ [d], st.nextId + 1⟩)
  else (none, st)

/-- `Weather.findById(id)` on an already-cast id. -/
def Weather_findById (docs : List StoredRecord) (id : Nat) : Option StoredRecord :=
  docs.find? (fun d => d.id == id)

/-- `Weather.findByIdAndUpdate(id, parsed, {new: true, runValidators: true})`:
update validators run first (`.error` models their ValidationError), then the
matched document has all its data paths set and `updatedAt` refreshed;
returns the updated document, or `none` when no document matches. -/
def Weather_findByIdAndUpdate (st : StoreState) (now : Int) (id : Nat)
    (r : WeatherRecord) : Except Unit (Option StoredRecord) × StoreState :=
  if mongooseRequiredOk r then
    match st.docs.find? (fun d => d.id == id) with
    | none => (.ok none, st)
    | some d0 =>
      let d1 : StoredRecord := { d0 with data := r, updatedAt := now }
      (.ok (some d1),
       { st with docs := st.docs.map (fun x => if x.id == id then d1 else x) })
  else (.error (), st)

/-- `Weather.findByIdAndDelete(id)`: removes the matching document and
returns it, or `none` when no document matches. -/
def Weather_findByIdAndDelete (st : StoreState) (id : Nat) :
    Option StoredRecord × StoreState :=
  match st.docs.find? (fun d => d.id == id) with
  | none => (none, st)
  | some d =>
    (some d, { st with docs := st.docs.eraseP (fun x => x.id == id) })

/-! ### Weather API Router (src/routes/weatherRoutes.js) -/

/-- The error taxonomy reaching the HTTP layer. -/
inductive AppError where
  /-- `createError(404, "Weather record not found")`. -/
  | notFound
  /-- mongoose CastError on a malformed `:id`. -/
  | invalidId
  /-- ZodError from `weatherSchema.parse`, carrying the offending fields. -/
  | zodIssues (fields : List String)
  /-- mongoose ValidationError on write. -/
  | storeInvalid
  /-- `createError(500, msg)` for missing configuration. -/
  | config (msg : String)
deriving DecidableEq

/-- HTTP status of an error: `http-errors` instances carry their status;
ZodError / CastError / mongoose ValidationError carry none and Express's
default error handler answers 500. -/
def AppError.status : AppError → Nat
  | .notFound => 404
  | .invalidId => 500
  | .zodIssues _ => 500
  | .storeInvalid => 500
  | .config _ => 500

/-- Outcome of one router handler. -/
inductive HandlerResult where
  /-- `res.json(docs)` for the list endpoint. -/
  | docList (rs : List StoredRecord)
  /-- `res.json(doc)` for a single document (200). -/
  | doc (r : StoredRecord)
  /-- `res.status(201).json(created)`. -/
  | created (r : StoredRecord)
  /-- `res.json({deleted: true, id})`. -/
  | deletedOk (id : Nat)
  /-- an error forwarded with `next(err)`. -/
  | failure (e : AppError)
deriving DecidableEq

/-- HTTP status of a handler outcome. -/
def HandlerResult.status : HandlerResult → Nat
  | .docList _ => 200
  | .doc _ => 200
  | .created _ => 201
  | .deletedOk _ => 200
  | .failure e => e.status

/-- Configuration of the process (`process.env`). -/
structure Env where
  apiKey : Option String
  defaultCity : Option String
deriving DecidableEq

/-- JS `a || b` for an optional string: an absent or empty (falsy) left side
falls through. -/
def jsOrStr (o : Option String) (dflt : String) : String :=
  match o with
  | some s => if s == "" then dflt else s
  | none => dflt

/-- `process.env.DEFAULT_CITY || "Philadelphia"`. -/
def envDefaultCity (env : Env) : String :=
  jsOrStr env.defaultCity "Philadelphia"

/-- `rest.city || DEFAULT_CITY || "Philadelphia"` (the bodies in scope carry
string-valued `city` when any). -/
def jsCityOf (o : Option Json) (dflt : String) : String :=
  match o with
  | some (.str s) => if s == "" then dflt else s
  | _ => dflt

/-- `if (manual)` truthiness of the body's `manual` member. -/
def manualFlag (body : List (String × Json)) : Bool :=
  match body.lookup "manual" with
  | some j => j.truthy
  | none => false

/-- Shared tail of both create endpoints:
`const parsed = weatherSchema.parse(candidate); const created = await
Weather.create(parsed); res.status(201).json(created)`. -/
def createFrom (st : StoreState) (now : Int) (candidate : Json) :
    HandlerResult × StoreState :=
  match weatherSchema_parse candidate with
  | .error es => (.failure (.zodIssues es), st)
  | .ok parsed =>
    match Weather_create st now parsed with
    | (some d, st1) => (.created d, st1)
    | (none, st1) => (.failure .storeInvalid, st1)

/-- `GET /` query evaluation: `Weather.find(city ? {city} : {})`
`.sort({fetchedAt: -1}).limit(limit)` (an absent or empty city string is
falsy and drops the filter).  MongoDB's `limit(0)` means no limit, so a
limit of 0 returns the whole sorted result. -/
def listQuery (docs : List StoredRecord) (cityQ : Option String)
    (limit : Nat) : List StoredRecord :=
  let filtered :=
    match cityQ with
    | some c => if c == "" then docs else docs.filter (fun d => d.data.city == c)
    | none => docs
  let sorted :=
    filtered.insertionSort (fun a b => b.data.fetchedAt ≤ a.data.fetchedAt)
  if limit = 0 then sorted else sorted.take limit

/-- `router.get("/")`: list records, `limit` defaulting to 50 (the model
takes the numeric value of the query parameter). -/
def getWeatherList (st : StoreState) (cityQ : Option String)
    (limitQ : Option Nat) : HandlerResult :=
  .docList (listQuery st.docs cityQ (limitQ.getD 50))

/-- `router.post("/")`: manual mode validates the body minus `manual`;
otherwise the provider is queried (after the API-key check) and its
normalized response is validated; either candidate is then created. -/
def postWeather (st : StoreState) (env : Env) (now : Int)
    (provider : String → ProviderData) (body : List (String × Json)) :
    HandlerResult × StoreState :=
  let rest := body.filter (fun kv => kv.1 != "manual")
  let cand : Except AppError Json :=
    if manualFlag body then .ok (.obj rest)
    else
      let city := jsCityOf (rest.lookup "city") (envDefaultCity env)
      match env.apiKey with
      | none => .error (.config "Missing OPENWEATHER_API_KEY")
      | some _ => .ok (fetchWeather (provider city) now)
  match cand with
  | .error e => (.failure e, st)
  | .ok candidate => createFrom st now candidate

/-- `router.get("/:id")`: cast the id, find the document, 404 when absent. -/
def getWeatherById (st : StoreState) (idStr : String) : HandlerResult :=
  match parseObjectId idStr with
  | none => .failure .invalidId
  | some id =>
    match Weather_findById st.docs id with
    | none => .failure .notFound
    | some d => .doc d

/-- `router.put("/:id")`: validate the body first (source order), then cast
the id and replace the document's data; 404 when absent. -/
def putWeatherById (st : StoreState) (now : Int) (idStr : String)
    (body : Json) : HandlerResult × StoreState :=
  match weatherSchema_parse body with
  | .error es => (.failure (.zodIssues es), st)
  | .ok parsed =>
    match parseObjectId idStr with
    | none => (.failure .invalidId, st)
    | some id =>
      match Weather_findByIdAndUpdate st now id parsed with
      | (.error _, st1) => (.failure .storeInvalid, st1)
      | (.ok none, st1) => (.failure .notFound, st1)
      | (.ok (some d), st1) => (.doc d, st1)

/-- `router.delete("/:id")`: cast the id, delete the document, answer
`{deleted: true, id}`; 404 when absent. -/
def deleteWeatherById (st : StoreState) (idStr : String) :
    HandlerResult × StoreState :=
  match parseObjectId idStr with
  | none => (.failure .invalidId, st)
  | some id =>
    match Weather_findByIdAndDelete st id with
    | (none, st1) => (.failure .notFound, st1)
    | (some d, st1) => (.deletedOk d.id, st1)

/-- `router.post("/fetch")`: resolve the city from the query (with the
configured fallbacks), require the API key, then normalize-validate-create. -/
def postWeatherFetch (st : StoreState) (env : Env) (now : Int)
    (provider : String → ProviderData) (cityQ : Option String) :
    HandlerResult × StoreState :=
  let city := jsOrStr cityQ (envDefaultCity env)
  match env.apiKey with
  | none => (.failure (.config "Missing OPENWEATHER_API_KEY"), st)
  | some _ => createFrom st now (fetchWeather (provider city) now)

/-! ### Spec-side reading of the validation contract (spec §4.2)

`SatisfiesWeatherSchema` transcribes the spec's enumeration of the schema
conditions; `offendingFields` lists, in shape order, the fields violating
their condition.  Both are written from the spec's words, to be compared with
`weatherSchema_parse` above, which is translated from the source. -/

/-- Spec: the member at `k` is a string. -/
def StrOk (k : String) (fs : List (String × Json)) : Prop :=
  ∃ s, fs.lookup k = some (Json.str s)

/-- Spec: `country` is a string of length at least 2. -/
def CountryOk (fs : List (String × Json)) : Prop :=
  ∃ s, fs.lookup "country" = some (Json.str s) ∧ 2 ≤ s.length

/-- Spec: the member at `k` is a number. -/
def NumOk (k : String) (fs : List (String × Json)) : Prop :=
  ∃ q, fs.lookup k = some (Json.num q)

/-- Spec: the member at `k` is an integer. -/
def IntOk (k : String) (fs : List (String × Json)) : Prop :=
  ∃ q, fs.lookup k = some (Json.num q) ∧ q.isInt

/-- Spec: `fetchedAt` is a valid date. -/
def DateOk (fs : List (String × Json)) : Prop :=
  ∃ t, fs.lookup "fetchedAt" = some (Json.date (some t))

/-- `coordinates` is an object. -/
def CoordsObj (fs : List (String × Json)) : Prop :=
  ∃ cfs, fs.lookup "coordinates" = some (Json.obj cfs)

/-- Spec: `coordinates.lon` is a number. -/
def LonOk (fs : List (String × Json)) : Prop :=
  ∃ cfs q, fs.lookup "coordinates" = some (Json.obj cfs) ∧
    cfs.lookup "lon" = some (Json.num q)

/-- Spec: `coordinates.lat` is a number. -/
def LatOk (fs : List (String × Json)) : Prop :=
  ∃ cfs q, fs.lookup "coordinates" = some (Json.obj cfs) ∧
    cfs.lookup "lat" = some (Json.num q)

/-- The spec's schema: city a string, country a string of length ≥ 2,
`coordinates.{lon,lat}` numbers, temp/feelsLike/windSpeed numbers,
humidity/pressure integers, condition/description strings, fetchedAt a
valid date. -/
def SatisfiesWeatherSchema (fs : List (String × Json)) : Prop :=
  StrOk "city" fs ∧ CountryOk fs ∧ LonOk fs ∧ LatOk fs ∧
  NumOk "temp" fs ∧ NumOk "feelsLike" fs ∧ IntOk "humidity" fs ∧
  IntOk "pressure" fs ∧ NumOk "windSpeed" fs ∧ StrOk "condition" fs ∧
  StrOk "description" fs ∧ DateOk fs

/-- Boolean decider for `CoordsObj`. -/
def isObjMember : Option Json → Bool
  | some (.obj _) => true
  | _ => false

/-- Boolean decider for `LonOk`/`LatOk`. -/
def coordNumOk (inner : String) (fs : List (String × Json)) : Bool :=
  match fs.lookup "coordinates" with
  | some (.obj cfs) => (jNum (cfs.lookup inner)).isSome
  | _ => false

instance (k : String) (fs : List (String × Json)) : Decidable (StrOk k fs) :=
  decidable_of_iff ((jStr (fs.lookup k)).isSome = true) (by
    unfold StrOk
    cases h : fs.lookup k with
    | none => simp [jStr]
    | some j => cases j <;> simp [jStr])

instance (fs : List (String × Json)) : Decidable (CountryOk fs) :=
  decidable_of_iff ((jCountry (fs.lookup "country")).isSome = true) (by
    unfold CountryOk
    cases h : fs.lookup "country" with
    | none => simp [jCountry, jStr]
    | some j => cases j <;> simp [jCountry, jStr])

instance (k : String) (fs : List (String × Json)) : Decidable (NumOk k fs) :=
  decidable_of_iff ((jNum (fs.lookup k)).isSome = true) (by
    unfold NumOk
    cases h : fs.lookup k with
    | none => simp [jNum]
    | some j => cases j <;> simp [jNum])

instance (k : String) (fs : List (String × Json)) : Decidable (IntOk k fs) :=
  decidable_of_iff ((jInt (fs.lookup k)).isSome = true) (by
    unfold IntOk
    cases h : fs.lookup k with
    | none => simp [jInt, jNum]
    | some j => cases j <;> simp [jInt, jNum])

instance (fs : List (String × Json)) : Decidable (DateOk fs) :=
  decidable_of_iff ((jDate (fs.lookup "fetchedAt")).isSome = true) (by
    unfold DateOk
    cases h : fs.lookup "fetchedAt" with
    | none => simp [jDate]
    | some j =>
      cases j with
      | date ms => cases ms <;> simp [jDate]
      | _ => simp [jDate])

instance (fs : List (String × Json)) : Decidable (CoordsObj fs) :=
  decidable_of_iff (isObjMember (fs.lookup "coordinates") = true) (by
    unfold CoordsObj
    cases h : fs.lookup "coordinates" with
    | none => simp [isObjMember]
    | some j => cases j <;> simp [isObjMember])

instance (fs : List (String × Json)) : Decidable (LonOk fs) :=
  decidable_of_iff (coordNumOk "lon" fs = true) (by
    unfold LonOk coordNumOk
    cases h : fs.lookup "coordinates" with
    | none => simp
    | some j =>
      cases j <;> simp
      rename_i cfs
      cases h2 : cfs.lookup "lon" with
      | none => simp [jNum]
      | some j2 => cases j2 <;> simp [jNum])

instance (fs : List (String × Json)) : Decidable (LatOk fs) :=
  decidable_of_iff (coordNumOk "lat" fs = true) (by
    unfold LatOk coordNumOk
    cases h : fs.lookup "coordinates" with
    | none => simp
    | some j =>
      cases j <;> simp
      rename_i cfs
      cases h2 : cfs.lookup "lat" with
      | none => simp [jNum]
      | some j2 => cases j2 <;> simp [jNum])

instance (fs : List (String × Json)) : Decidable (SatisfiesWeatherSchema fs) := by
  unfold SatisfiesWeatherSchema
  infer_instance

/-- Spec-side list of offending fields, in schema shape order. -/
def offendingFields (fs : List (String × Json)) : List String :=
  (if StrOk "city" fs then [] else ["city"])
  ++ (if CountryOk fs then [] else ["country"])
  ++ (if CoordsObj fs then
        (if LonOk fs then [] else ["coordinates.lon"])
        ++ (if LatOk fs then [] else ["coordinates.lat"])
      else ["coordinates"])
  ++ (if NumOk "temp" fs then [] else ["temp"])
  ++ (if NumOk "feelsLike" fs then [] else ["feelsLike"])
  ++ (if IntOk "humidity" fs then [] else ["humidity"])
  ++ (if IntOk "pressure" fs then [] else ["pressure"])
  ++ (if NumOk "windSpeed" fs then [] else ["windSpeed"])
  ++ (if StrOk "condition" fs then [] else ["condition"])
  ++ (if StrOk "description" fs then [] else ["description"])
  ++ (if DateOk fs then [] else ["fetchedAt"])

/-- The canonical schema keys, in shape order. -/
def weatherKeys : List String :=
  ["city", "country", "coordinates", "temp", "feelsLike", "humidity",
   "pressure", "windSpeed", "condition", "description", "fetchedAt"]

/-! ### Concrete sample inputs (used by witnesses) -/

/-- A full valid manual request body, mirroring the test factory
`makeFakeWeather` of src/tests/weather.api.test.js. -/
def sampleBody : List (String × Json) :=
  [("manual", .bool true),
   ("city", .str "Testville"),
   ("country", .str "US"),
   ("coordinates", .obj [("lon", .num (-3)), ("lat", .num 4)]),
   ("temp", .num 21),
   ("feelsLike", .num 20),
   ("humidity", .num 55),
   ("pressure", .num 1013),
   ("windSpeed", .num 4),
   ("condition", .str "Clouds"),
   ("description", .str "overcast clouds"),
   ("fetchedAt", .date (some 1700000000000))]

/-- The record `sampleBody` (minus `manual`) validates to. -/
def sampleRec : WeatherRecord :=
  ⟨"Testville", "US", ⟨-3, 4⟩, 21, 20, 55, 1013, 4, "Clouds",
   "overcast clouds", 1700000000000⟩

/-- A provider response with every optional chain absent (and a provider
timestamp present, to witness that it is ignored). -/
def provBare : ProviderData :=
  ⟨"Paris", none, none, none, none, none, none, none, none, none, none,
   some 99⟩

/-- A body that satisfies the zod schema although its `city` is empty. -/
def emptyCityBody : List (String × Json) :=
  [("city", .str ""),
   ("country", .str "US"),
   ("coordinates", .obj [("lon", .num 1), ("lat", .num 2)]),
   ("temp", .num 10),
   ("feelsLike", .num 9),
   ("humidity", .num 50),
   ("pressure", .num 1000),
   ("windSpeed", .num 3),
   ("condition", .str "Rain"),
   ("description", .str "light rain"),
   ("fetchedAt", .date (some 100))]

/-- The record `emptyCityBody` validates to. -/
def emptyCityRec : WeatherRecord :=
  ⟨"", "US", ⟨1, 2⟩, 10, 9, 50, 1000, 3, "Rain", "light rain", 100⟩

/-- Sample records for store-level witnesses. -/
def recA : WeatherRecord :=
  ⟨"CityA", "US", ⟨1, 2⟩, 10, 9, 50, 1000, 3, "Rain", "light rain", 100⟩

def recB : WeatherRecord :=
  ⟨"CityB", "FR", ⟨5, 6⟩, 12, 11, 60, 1010, 2, "Clear", "clear sky", 200⟩

def recC : WeatherRecord :=
  ⟨"CityC", "DE", ⟨7, 8⟩, 14, 13, 70, 1020, 1, "Snow", "light snow", 300⟩

/-- A store holding two documents, ids 0 and 1. -/
def stAB : StoreState := ⟨[⟨0, recA, 1, 1⟩, ⟨1, recB, 2, 2⟩], 2⟩

/-- A store holding three documents, ids 0, 1, 2, with increasing
`fetchedAt`. -/
def st3 : StoreState := ⟨[⟨0, recA, 1, 1⟩, ⟨1, recB, 2, 2⟩, ⟨2, recC, 3, 3⟩], 3⟩

/-- The 24-hex-digit strings casting to ObjectIds 0 and 2. -/
def idStr0 : String := "000000000000000000000000"

def idStr2 : String := "000000000000000000000002"

/-- A full valid PUT body carrying the fields of `recB`. -/
def putBodyB : Json :=
  .obj [("city", .str "CityB"),
        ("country", .str "FR"),
        ("coordinates", .obj [("lon", .num 5), ("lat", .num 6)]),
        ("temp", .num 12),
        ("feelsLike", .num 11),
        ("humidity", .num 60),
        ("pressure", .num 1010),
        ("windSpeed", .num 2),
        ("condition", .str "Clear"),
        ("description", .str "clear sky"),
        ("fetchedAt", .date (some 200))]

/-! ### Characterizations of the field parsers -/

theorem jStr_eq_some {o : Option Json} {s : String} :
    jStr o = some s ↔ o = some (Json.str s) := by
  cases o with
  | none => simp [jStr]
  | some j => cases j <;> simp [jStr]

theorem jNum_eq_some {o : Option Json} {q : Rat} :
    jNum o = some q ↔ o = some (Json.num q) := by
  cases o with
  | none => simp [jNum]
  | some j => cases j <;> simp [jNum]

theorem jInt_eq_some {o : Option Json} {q : Rat} :
    jInt o = some q ↔ o = some (Json.num q) ∧ q.isInt := by
  cases o with
  | none => simp [jInt, jNum]
  | some j =>
    cases j <;> simp [jInt, jNum]
    rename_i q'
    by_cases h : q'.isInt
    · simp [h]
      rintro rfl
      exact h
    · simp [h]
      rintro rfl
      simpa using h

theorem jDate_eq_some {o : Option Json} {t : Int} :
    jDate o = some t ↔ o = some (Json.date (some t)) := by
  cases o with
  | none => simp [jDate]
  | some j =>
    cases j with
    | date ms => cases ms <;> simp [jDate]
    | _ => simp [jDate]

theorem jCountry_eq_some {o : Option Json} {s : String} :
    jCountry o = some s ↔ o = some (Json.str s) ∧ 2 ≤ s.length := by
  cases o with
  | none => simp [jCountry, jStr]
  | some j =>
    cases j <;> simp [jCountry, jStr]
    rename_i s'
    by_cases h : 2 ≤ s'.length
    · simp [h]
      rintro rfl
      exact h
    · simp [h]
      rintro rfl
      omega

theorem parseCoords_eq_ok {o : Option Json} {c : Coordinates} :
    parseCoords o = .ok c ↔
      ∃ cfs, o = some (Json.obj cfs) ∧
        cfs.lookup "lon" = some (Json.num c.lon) ∧
        cfs.lookup "lat" = some (Json.num c.lat) := by
  constructor
  · intro h
    cases o with
    | none => simp [parseCoords] at h
    | some j =>
      cases j with
      | obj cfs =>
        cases hlon : jNum (cfs.lookup "lon") with
        | none =>
          cases hlat : jNum (cfs.lookup "lat") <;>
            simp [parseCoords, hlon, hlat] at h
        | some lon =>
          cases hlat : jNum (cfs.lookup "lat") with
          | none => simp [parseCoords, hlon, hlat] at h
          | some lat =>
            simp [parseCoords, hlon, hlat] at h
            subst h
            exact ⟨cfs, rfl, jNum_eq_some.1 hlon, jNum_eq_some.1 hlat⟩
      | null => simp [parseCoords] at h
      | bool b => simp [parseCoords] at h
      | num q => simp [parseCoords] at h
      | str s => simp [parseCoords] at h
      | date ms => simp [parseCoords] at h
      | arr xs => simp [parseCoords] at h
  · rintro ⟨cfs, rfl, hlon, hlat⟩
    have h1 : jNum (cfs.lookup "lon") = some c.lon := jNum_eq_some.2 hlon
    have h2 : jNum (cfs.lookup "lat") = some c.lat := jNum_eq_some.2 hlat
    simp [parseCoords, h1, h2]

theorem jStr_isSome_iff {k : String} {fs : List (String × Json)} :
    (jStr (fs.lookup k)).isSome = true ↔ StrOk k fs := by
  simp [Option.isSome_iff_exists, StrOk, jStr_eq_some]

theorem jCountry_isSome_iff {fs : List (String × Json)} :
    (jCountry (fs.lookup "country")).isSome = true ↔ CountryOk fs := by
  simp [Option.isSome_iff_exists, CountryOk, jCountry_eq_some]

theorem jNum_isSome_iff {k : String} {fs : List (String × Json)} :
    (jNum (fs.lookup k)).isSome = true ↔ NumOk k fs := by
  simp [Option.isSome_iff_exists, NumOk, jNum_eq_some]

theorem jInt_isSome_iff {k : String} {fs : List (String × Json)} :
    (jInt (fs.lookup k)).isSome = true ↔ IntOk k fs := by
  simp [Option.isSome_iff_exists, IntOk, jInt_eq_some]

theorem jDate_isSome_iff {fs : List (String × Json)} :
    (jDate (fs.lookup "fetchedAt")).isSome = true ↔ DateOk fs := by
  simp [Option.isSome_iff_exists, DateOk, jDate_eq_some]

theorem isObjMember_iff {fs : List (String × Json)} :
    isObjMember (fs.lookup "coordinates") = true ↔ CoordsObj fs := by
  unfold CoordsObj
  cases h : fs.lookup "coordinates" with
  | none => simp [isObjMember]
  | some j => cases j <;> simp [isObjMember]

theorem coordNumOk_lon_iff {fs : List (String × Json)} :
    coordNumOk "lon" fs = true ↔ LonOk fs := by
  unfold LonOk coordNumOk
  cases h : fs.lookup "coordinates" with
  | none => simp
  | some j =>
    cases j <;> simp
    simp [Option.isSome_iff_exists, jNum_eq_some]

theorem coordNumOk_lat_iff {fs : List (String × Json)} :
    coordNumOk "lat" fs = true ↔ LatOk fs := by
  unfold LatOk coordNumOk
  cases h : fs.lookup "coordinates" with
  | none => simp
  | some j =>
    cases j <;> simp
    simp [Option.isSome_iff_exists, jNum_eq_some]

/-! ### Success, failure and issue-list characterization of the parse -/

theorem weatherSchema_parse_err {fs : List (String × Json)}
    (h : ¬ SatisfiesWeatherSchema fs) :
    weatherSchema_parse (.obj fs) = .error (weatherFieldErrors fs) := by
  simp only [weatherSchema_parse]
  split
  · rename_i c1 c2 c3 c4 c5 c6 c7 c8 c9 c10 c11 h1 h2 h3 h4 h5 h6 h7 h8 h9 h10 h11
    exfalso
    apply h
    obtain ⟨cfs, hc, hlon, hlat⟩ := parseCoords_eq_ok.1 h3
    exact ⟨⟨c1, jStr_eq_some.1 h1⟩, ⟨c2, jCountry_eq_some.1 h2⟩,
      ⟨cfs, c3.lon, hc, hlon⟩, ⟨cfs, c3.lat, hc, hlat⟩,
      ⟨c4, jNum_eq_some.1 h4⟩, ⟨c5, jNum_eq_some.1 h5⟩,
      ⟨c6, jInt_eq_some.1 h6⟩, ⟨c7, jInt_eq_some.1 h7⟩,
      ⟨c8, jNum_eq_some.1 h8⟩, ⟨c9, jStr_eq_some.1 h9⟩,
      ⟨c10, jStr_eq_some.1 h10⟩, ⟨c11, jDate_eq_some.1 h11⟩⟩
  · rfl

theorem weatherSchema_parse_ok_of_sat {fs : List (String × Json)}
    (h : SatisfiesWeatherSchema fs) :
    ∃ r, weatherSchema_parse (.obj fs) = .ok r := by
  obtain ⟨⟨city, hc⟩, ⟨country, hco, hlen⟩, ⟨cfs, lon, hcf, hlon⟩,
    ⟨cfs2, lat, hcf2, hlat⟩, ⟨temp, ht⟩, ⟨fl, hf⟩, ⟨hum, hh, hhi⟩,
    ⟨pres, hp, hpi⟩, ⟨ws, hw⟩, ⟨cond, hcond⟩, ⟨desc, hd⟩, ⟨fa, hfa⟩⟩ := h
  rw [hcf] at hcf2
  injection hcf2 with hcf2
  injection hcf2 with hcf2
  subst hcf2
  have e1 : jStr (fs.lookup "city") = some city := jStr_eq_some.2 hc
  have e2 : jCountry (fs.lookup "country") = some country :=
    jCountry_eq_some.2 ⟨hco, hlen⟩
  have e3 : parseCoords (fs.lookup "coordinates") = .ok ⟨lon, lat⟩ :=
    parseCoords_eq_ok.2 ⟨cfs, hcf, hlon, hlat⟩
  have e4 : jNum (fs.lookup "temp") = some temp := jNum_eq_some.2 ht
  have e5 : jNum (fs.lookup "feelsLike") = some fl := jNum_eq_some.2 hf
  have e6 : jInt (fs.lookup "humidity") = some hum := jInt_eq_some.2 ⟨hh, hhi⟩
  have e7 : jInt (fs.lookup "pressure") = some pres := jInt_eq_some.2 ⟨hp, hpi⟩
  have e8 : jNum (fs.lookup "windSpeed") = some ws := jNum_eq_some.2 hw
  have e9 : jStr (fs.lookup "condition") = some cond := jStr_eq_some.2 hcond
  have e10 : jStr (fs.lookup "description") = some desc := jStr_eq_some.2 hd
  have e11 : jDate (fs.lookup "fetchedAt") = some fa := jDate_eq_some.2 hfa
  refine ⟨⟨city, country, ⟨lon, lat⟩, temp, fl, hum, pres, ws, cond, desc, fa⟩, ?_⟩
  simp only [weatherSchema_parse]
  rw [e1, e2, e3, e4, e5, e6, e7, e8, e9, e10, e11]

/-- The zod parse succeeds exactly on payloads satisfying the schema the
spec enumerates. -/
theorem weatherSchema_parse_ok_iff {fs : List (String × Json)} :
    (∃ r, weatherSchema_parse (.obj fs) = .ok r) ↔ SatisfiesWeatherSchema fs := by
  constructor
  · rintro ⟨r, hr⟩
    by_contra h
    rw [weatherSchema_parse_err h] at hr
    cases hr
  · exact weatherSchema_parse_ok_of_sat

theorem of_ite_nil {P : Prop} [Decidable P] {xs : List String}
    (h : (if P then ([] : List String) else xs) = []) (hx : xs ≠ []) : P := by
  by_cases hp : P
  · exact hp
  · rw [if_neg hp] at h
    exact absurd h hx

theorem ite_isNone_eq {α : Type} {o : Option α} {P : Prop} [Decidable P]
    (h : o.isSome = true ↔ P) (xs : List String) :
    (if o.isNone then xs else []) = (if P then [] else xs) := by
  cases o with
  | none =>
    have hnp : ¬ P := fun hp => by simpa using h.2 hp
    simp [hnp]
  | some a =>
    have hp : P := h.1 rfl
    simp [hp]

theorem coordErrsOf_eq (fs : List (String × Json)) :
    coordErrsOf (fs.lookup "coordinates") =
      (if CoordsObj fs then
        (if LonOk fs then [] else ["coordinates.lon"])
        ++ (if LatOk fs then [] else ["coordinates.lat"])
      else ["coordinates"]) := by
  cases hcl : fs.lookup "coordinates" with
  | none =>
    have h1 : ¬ CoordsObj fs := by simp [CoordsObj, hcl]
    simp [coordErrsOf, parseCoords, hcl, h1]
  | some j =>
    cases j with
    | obj cfs =>
      have hobj : CoordsObj fs := ⟨cfs, hcl⟩
      have hlonIff : LonOk fs ↔ (jNum (cfs.lookup "lon")).isSome = true := by
        constructor
        · rintro ⟨cfs2, q, hcl2, hq⟩
          rw [hcl] at hcl2
          injection hcl2 with hcl2
          injection hcl2 with hcl2
          subst hcl2
          simp [jNum_eq_some.2 hq]
        · intro hq
          obtain ⟨q, hq⟩ := Option.isSome_iff_exists.1 hq
          exact ⟨cfs, q, hcl, jNum_eq_some.1 hq⟩
      have hlatIff : LatOk fs ↔ (jNum (cfs.lookup "lat")).isSome = true := by
        constructor
        · rintro ⟨cfs2, q, hcl2, hq⟩
          rw [hcl] at hcl2
          injection hcl2 with hcl2
          injection hcl2 with hcl2
          subst hcl2
          simp [jNum_eq_some.2 hq]
        · intro hq
          obtain ⟨q, hq⟩ := Option.isSome_iff_exists.1 hq
          exact ⟨cfs, q, hcl, jNum_eq_some.1 hq⟩
      cases hlon : jNum (cfs.lookup "lon") <;>
        cases hlat : jNum (cfs.lookup "lat") <;>
          simp [coordErrsOf, parseCoords, hcl, hlon, hlat, hobj, hlonIff, hlatIff]
    | null =>
      have h1 : ¬ CoordsObj fs := by simp [CoordsObj, hcl]
      simp [coordErrsOf, parseCoords, hcl, h1]
    | bool b =>
      have h1 : ¬ CoordsObj fs := by simp [CoordsObj, hcl]
      simp [coordErrsOf, parseCoords, hcl, h1]
    | num q =>
      have h1 : ¬ CoordsObj fs := by simp [CoordsObj, hcl]
      simp [coordErrsOf, parseCoords, hcl, h1]
    | str s =>
      have h1 : ¬ CoordsObj fs := by simp [CoordsObj, hcl]
      simp [coordErrsOf, parseCoords, hcl, h1]
    | date ms =>
      have h1 : ¬ CoordsObj fs := by simp [CoordsObj, hcl]
      simp [coordErrsOf, parseCoords, hcl, h1]
    | arr xs =>
      have h1 : ¬ CoordsObj fs := by simp [CoordsObj, hcl]
      simp [coordErrsOf, parseCoords, hcl, h1]

/-- The issue list the source's parse reports coincides with the spec-side
list of offending fields. -/
theorem weatherFieldErrors_eq (fs : List (String × Json)) :
    weatherFieldErrors fs = offendingFields fs := by
  unfold weatherFieldErrors offendingFields
  rw [ite_isNone_eq jStr_isSome_iff, ite_isNone_eq jCountry_isSome_iff,
    coordErrsOf_eq, ite_isNone_eq jNum_isSome_iff,
    ite_isNone_eq jNum_isSome_iff, ite_isNone_eq jInt_isSome_iff,
    ite_isNone_eq jInt_isSome_iff, ite_isNone_eq jNum_isSome_iff,
    ite_isNone_eq jStr_isSome_iff, ite_isNone_eq jStr_isSome_iff,
    ite_isNone_eq jDate_isSome_iff]

/-- An empty offending-field list forces the schema to hold (hence a failing
parse always carries at least one offending field). -/
theorem satisfies_of_offendingFields_nil {fs : List (String × Json)}
    (h : offendingFields fs = []) : SatisfiesWeatherSchema fs := by
  unfold offendingFields at h
  simp only [List.append_eq_nil, and_assoc] at h
  obtain ⟨h1, h2, h3, h4, h5, h6, h7, h8, h9, h10, h11⟩ := h
  have hcoords : CoordsObj fs ∧ LonOk fs ∧ LatOk fs := by
    by_cases hc : CoordsObj fs
    · rw [if_pos hc] at h3
      rw [List.append_eq_nil] at h3
      exact ⟨hc, of_ite_nil h3.1 (by simp), of_ite_nil h3.2 (by simp)⟩
    · rw [if_neg hc] at h3
      cases h3
  obtain ⟨hlonOk, hlatOk⟩ := hcoords.2
  exact ⟨of_ite_nil h1 (by simp), of_ite_nil h2 (by simp), hlonOk, hlatOk,
    of_ite_nil h4 (by simp), of_ite_nil h5 (by simp), of_ite_nil h6 (by simp),
    of_ite_nil h7 (by simp), of_ite_nil h8 (by simp), of_ite_nil h9 (by simp),
    of_ite_nil h10 (by simp), of_ite_nil h11 (by simp)⟩

/-! ### Claim theorems -/

/-- C3: For every candidate payload, the Validation Layer returns the
normalized-and-typed object exactly when the payload satisfies the schema
(city a string, country a string of length at least 2, coordinates.lon and
coordinates.lat numbers, temp/feelsLike/windSpeed numbers, humidity and
pressure integers, condition and description strings, fetchedAt a valid
date), and otherwise raises a ValidationError carrying the list of
offending fields (a non-object payload fails with the root path); being a
pure function of the payload, the parse has no network or storage side
effects. -/
theorem claim_C3_validation (j : Json) :
    (∀ fs, j = Json.obj fs →
      (((∃ r, weatherSchema_parse j = .ok r) ↔ SatisfiesWeatherSchema fs)
       ∧ (¬ SatisfiesWeatherSchema fs →
           weatherSchema_parse j = .error (offendingFields fs)
           ∧ offendingFields fs ≠ [])))
    ∧ ((∀ fs, j ≠ Json.obj fs) → weatherSchema_parse j = .error [""]) := by
  constructor
  · rintro fs rfl
    refine ⟨weatherSchema_parse_ok_iff, fun h =>
      ⟨?_, fun hnil => h (satisfies_of_offendingFields_nil hnil)⟩⟩
    rw [weatherSchema_parse_err h, weatherFieldErrors_eq]
  · intro h
    cases j with
    | obj fs => exact absurd rfl (h fs)
    | null => rfl
    | bool b => rfl
    | num q => rfl
    | str s => rfl
    | date ms => rfl
    | arr xs => rfl

/-- Witness for C3 at a concrete bad object payload and a concrete
non-object payload. -/
theorem claim_C3_validation_witness :
    weatherSchema_parse (.obj [("city", Json.num 5)]) =
      .error ["city", "country", "coordinates", "temp", "feelsLike",
              "humidity", "pressure", "windSpeed", "condition",
              "description", "fetchedAt"]
    ∧ weatherSchema_parse (.str "nope") = .error [""] := by
  have h := (claim_C3_validation (.obj [("city", Json.num 5)])).1 _ rfl
  have h2 := (claim_C3_validation (.str "nope")).2 (by intro fs hf; cases hf)
  refine ⟨?_, h2⟩
  rw [(h.2 (by decide)).1]
  decide

/-- C2: For every provider response, the Normalizer's output defaults each
missing optional field: country to "NA", the numeric fields
temp/feelsLike/humidity/pressure/windSpeed to 0, condition and description
to "Unknown", coordinates to lon 0, lat 0; and fetchedAt is always the
current time at normalization, independent of the provider's own
timestamp. -/
theorem claim_C2_normalizer (d : ProviderData) (now : Int) :
    ((fetchWeather d now).get "fetchedAt" = some (.date (some now)))
    ∧ (d.sys_country = none →
        (fetchWeather d now).get "country" = some (.str "NA"))
    ∧ (d.coord_lon = none → d.coord_lat = none →
        (fetchWeather d now).get "coordinates" =
          some (.obj [("lon", .num 0), ("lat", .num 0)]))
    ∧ (d.main_temp = none → (fetchWeather d now).get "temp" = some (.num 0))
    ∧ (d.main_feels_like = none →
        (fetchWeather d now).get "feelsLike" = some (.num 0))
    ∧ (d.main_humidity = none →
        (fetchWeather d now).get "humidity" = some (.num 0))
    ∧ (d.main_pressure = none →
        (fetchWeather d now).get "pressure" = some (.num 0))
    ∧ (d.wind_speed = none →
        (fetchWeather d now).get "windSpeed" = some (.num 0))
    ∧ (d.weather0_main = none →
        (fetchWeather d now).get "condition" = some (.str "Unknown"))
    ∧ (d.weather0_description = none →
        (fetchWeather d now).get "description" = some (.str "Unknown")) := by
  refine ⟨?_, fun h => ?_, fun h1 h2 => ?_, fun h => ?_, fun h => ?_,
    fun h => ?_, fun h => ?_, fun h => ?_, fun h => ?_, fun h => ?_⟩ <;>
    simp_all [fetchWeather, Json.get, List.lookup]

/-- Witness for C2 at a provider response with every optional chain absent
(and a provider timestamp present). -/
theorem claim_C2_normalizer_witness :
    (fetchWeather provBare 5).get "fetchedAt" = some (.date (some 5))
    ∧ (fetchWeather provBare 5).get "country" = some (.str "NA")
    ∧ (fetchWeather provBare 5).get "coordinates" =
        some (.obj [("lon", .num 0), ("lat", .num 0)])
    ∧ (fetchWeather provBare 5).get "temp" = some (.num 0)
    ∧ (fetchWeather provBare 5).get "feelsLike" = some (.num 0)
    ∧ (fetchWeather provBare 5).get "humidity" = some (.num 0)
    ∧ (fetchWeather provBare 5).get "pressure" = some (.num 0)
    ∧ (fetchWeather provBare 5).get "windSpeed" = some (.num 0)
    ∧ (fetchWeather provBare 5).get "condition" = some (.str "Unknown")
    ∧ (fetchWeather provBare 5).get "description" = some (.str "Unknown") := by
  have h := claim_C2_normalizer provBare 5
  exact ⟨h.1, h.2.1 rfl, h.2.2.1 rfl rfl, h.2.2.2.1 rfl, h.2.2.2.2.1 rfl,
    h.2.2.2.2.2.1 rfl, h.2.2.2.2.2.2.1 rfl, h.2.2.2.2.2.2.2.1 rfl,
    h.2.2.2.2.2.2.2.2.1 rfl, h.2.2.2.2.2.2.2.2.2 rfl⟩

/-- C7: For every malformed id (one the store's ObjectId cast rejects),
GET /weather/:id and DELETE /weather/:id answer with a 4xx/5xx status
(here the CastError surfaces as 500 through the default error handler) —
never 2xx and never an unhandled exception — and the failure condition
(`invalidId`) is distinct from `notFound`. -/
theorem claim_C7_malformed_id (st : StoreState) (idStr : String)
    (h : parseObjectId idStr = none) :
    getWeatherById st idStr = .failure .invalidId
    ∧ deleteWeatherById st idStr = (.failure .invalidId, st)
    ∧ (HandlerResult.failure .invalidId).status = 500
    ∧ 400 ≤ (HandlerResult.failure .invalidId).status
    ∧ ¬(200 ≤ (HandlerResult.failure .invalidId).status
        ∧ (HandlerResult.failure .invalidId).status < 300)
    ∧ AppError.invalidId ≠ AppError.notFound := by
  refine ⟨?_, ?_, rfl, by decide, by decide, by decide⟩
  · simp [getWeatherById, h]
  · simp [deleteWeatherById, h]

/-- Witness for C7 at the spec's example id string. -/
theorem claim_C7_malformed_id_witness :
    getWeatherById ⟨[], 0⟩ "not-a-valid-id" = .failure .invalidId
    ∧ deleteWeatherById ⟨[], 0⟩ "not-a-valid-id" =
        (.failure .invalidId, ⟨[], 0⟩) := by
  have h := claim_C7_malformed_id ⟨[], 0⟩ "not-a-valid-id" (by decide)
  exact ⟨h.1, h.2.1⟩

/-- C8: For every request to a Normalizer-dependent endpoint
(POST /weather without a truthy manual flag, and POST /weather/fetch),
when the provider API key is absent the request fails with status 500,
with the store unchanged and without consulting the provider (the outcome
is the same for any provider). -/
theorem claim_C8_missing_key (st : StoreState) (env : Env) (now : Int)
    (p1 p2 : String → ProviderData) (body : List (String × Json))
    (cityQ : Option String)
    (hkey : env.apiKey = none) (hman : manualFlag body = false) :
    postWeather st env now p1 body =
      (.failure (.config "Missing OPENWEATHER_API_KEY"), st)
    ∧ postWeather st env now p1 body = postWeather st env now p2 body
    ∧ postWeatherFetch st env now p1 cityQ =
      (.failure (.config "Missing OPENWEATHER_API_KEY"), st)
    ∧ postWeatherFetch st env now p1 cityQ = postWeatherFetch st env now p2 cityQ
    ∧ (HandlerResult.failure (.config "Missing OPENWEATHER_API_KEY")).status
        = 500 := by
  refine ⟨?_, ?_, ?_, ?_, rfl⟩ <;>
    simp [postWeather, postWeatherFetch, hkey, hman]

/-- Witness for C8 with an empty body and a concrete fetch query. -/
theorem claim_C8_missing_key_witness :
    postWeather ⟨[], 0⟩ ⟨none, some "X"⟩ 3 (fun _ => provBare) [] =
      (.failure (.config "Missing OPENWEATHER_API_KEY"), ⟨[], 0⟩)
    ∧ postWeatherFetch ⟨[], 0⟩ ⟨none, some "X"⟩ 3 (fun _ => provBare)
        (some "London") =
      (.failure (.config "Missing OPENWEATHER_API_KEY"), ⟨[], 0⟩) := by
  have h := claim_C8_missing_key ⟨[], 0⟩ ⟨none, some "X"⟩ 3
    (fun _ => provBare) (fun _ => provBare) [] (some "London") rfl rfl
  exact ⟨h.1, h.2.2.1⟩

/-- Looking a key up in a list filtered to a key set the key belongs to is
the same as looking it up in the unfiltered list. -/
theorem lookup_filter_of_mem {β : Type} {keys : List String} {k : String}
    (hk : keys.contains k = true) (fs : List (String × β)) :
    (fs.filter (fun kv => keys.contains kv.1)).lookup k = fs.lookup k := by
  induction fs with
  | nil => rfl
  | cons a t ih =>
    obtain ⟨a1, a2⟩ := a
    rw [List.filter_cons]
    by_cases ha : keys.contains a1 = true
    · rw [if_pos (by simpa using ha)]
      cases hak : (k == a1)
      · simp only [List.lookup, hak]
        exact ih
      · simp only [List.lookup, hak]
    · have hak : (k == a1) = false := by
        rcases hbe : (k == a1) with _ | _
        · rfl
        · have hka : k = a1 := by simpa using hbe
          subst hka
          exact absurd hk ha
      rw [if_neg (by simpa using ha)]
      rw [ih]
      conv_rhs => rw [show List.lookup k ((a1, a2) :: t) = List.lookup k t by
        simp only [List.lookup, hak]]

/-- The zod parse only reads the canonical schema keys: filtering the body
to those keys leaves its outcome unchanged. -/
theorem weatherSchema_parse_strips (fs : List (String × Json)) :
    weatherSchema_parse (.obj (fs.filter (fun kv => weatherKeys.contains kv.1)))
      = weatherSchema_parse (.obj fs) := by
  have h : ∀ k, weatherKeys.contains k = true →
      (fs.filter (fun kv => weatherKeys.contains kv.1)).lookup k = fs.lookup k :=
    fun k hk => lookup_filter_of_mem hk fs
  simp only [weatherSchema_parse, weatherFieldErrors]
  rw [h "city" (by decide), h "country" (by decide),
    h "coordinates" (by decide), h "temp" (by decide),
    h "feelsLike" (by decide), h "humidity" (by decide),
    h "pressure" (by decide), h "windSpeed" (by decide),
    h "condition" (by decide), h "description" (by decide),
    h "fetchedAt" (by decide)]

/-- C10: For every manual create, keys of the request body outside the
canonical WeatherRecord schema are stripped during validation (the parse
outcome only depends on the canonical keys), the `manual` flag is not a
canonical key, and the router parses the body with `manual` removed — so
the persisted record (a `WeatherRecord`) carries only the canonical schema
fields. -/
theorem claim_C10_manual_strips (fs : List (String × Json)) (st : StoreState)
    (env : Env) (now : Int) (provider : String → ProviderData) :
    (weatherSchema_parse (.obj (fs.filter (fun kv => weatherKeys.contains kv.1)))
       = weatherSchema_parse (.obj fs))
    ∧ weatherKeys.contains "manual" = false
    ∧ (manualFlag fs = true →
        postWeather st env now provider fs =
          createFrom st now (.obj (fs.filter (fun kv => kv.1 != "manual")))) := by
  refine ⟨weatherSchema_parse_strips fs, by decide, fun h => ?_⟩
  simp [postWeather, h]

/-- Witness for C10: a manual body with an extra key parses as the body
restricted to schema keys, and the handler parses it with `manual`
removed. -/
theorem claim_C10_manual_strips_witness :
    weatherSchema_parse
        (.obj ((("junk", Json.str "x") :: sampleBody).filter
          (fun kv => weatherKeys.contains kv.1)))
      = weatherSchema_parse (.obj (("junk", Json.str "x") :: sampleBody))
    ∧ postWeather ⟨[], 0⟩ ⟨none, none⟩ 7 (fun _ => provBare) sampleBody =
        createFrom ⟨[], 0⟩ 7
          (.obj (sampleBody.filter (fun kv => kv.1 != "manual"))) := by
  have h := claim_C10_manual_strips (("junk", Json.str "x") :: sampleBody)
    ⟨[], 0⟩ ⟨none, none⟩ 7 (fun _ => provBare)
  have h2 := claim_C10_manual_strips sampleBody
    ⟨[], 0⟩ ⟨none, none⟩ 7 (fun _ => provBare)
  exact ⟨h.1, h2.2.2 (by decide)⟩

/-- C9 counterexample: a payload whose `city` is the empty string passes
the Validation Layer, so not every record that passes it has a non-empty
city. -/
theorem claim_C9_counterexample :
    weatherSchema_parse (.obj emptyCityBody) = .ok emptyCityRec
    ∧ emptyCityRec.city = "" := by
  decide

/-- A successful `Weather.create` only ever returns a document with a
non-empty city (the mongoose `required` validation). -/
theorem Weather_create_city_ne {st : StoreState} {now : Int}
    {r : WeatherRecord} {d : StoredRecord} {st2 : StoreState}
    (hc : Weather_create st now r = (some d, st2)) : d.data.city ≠ "" := by
  unfold Weather_create at hc
  by_cases hreq : mongooseRequiredOk r = true
  · rw [if_pos hreq] at hc
    injection hc with hc1 hc2
    injection hc1 with hc1
    subst hc1
    have h2 := hreq
    unfold mongooseRequiredOk at h2
    simp only [Bool.and_eq_true, bne_iff_ne] at h2
    simpa using h2.1
  · rw [if_neg hreq] at hc
    injection hc with hc1 hc2
    cases hc1

/-- Any document of the store after the shared validate-then-create tail
was either already stored or has a non-empty city. -/
theorem createFrom_docs_superset (st : StoreState) (now : Int) (cand : Json) :
    ∀ d ∈ ((createFrom st now cand).2).docs, d ∈ st.docs ∨ d.data.city ≠ "" := by
  intro d hd
  unfold createFrom at hd
  cases hp : weatherSchema_parse cand with
  | error es =>
    simp only [hp] at hd
    exact Or.inl hd
  | ok parsed =>
    simp only [hp] at hd
    cases hc : Weather_create st now parsed with
    | mk od st2 =>
      cases od with
      | none =>
        simp only [hc] at hd
        have hst : st2 = st := by
          unfold Weather_create at hc
          by_cases hreq : mongooseRequiredOk parsed = true
          · rw [if_pos hreq] at hc
            injection hc with hc1 hc2
            cases hc1
          · rw [if_neg hreq] at hc
            injection hc with hc1 hc2
            exact hc2.symm
        subst hst
        exact Or.inl hd
      | some dd =>
        simp only [hc] at hd
        have hdocs : st2.docs = st.docs ++ [dd] := by
          unfold Weather_create at hc
          by_cases hreq : mongooseRequiredOk parsed = true
          · rw [if_pos hreq] at hc
            injection hc with hc1 hc2
            injection hc1 with hc1
            rw [← hc2, ← hc1]
          · rw [if_neg hreq] at hc
            injection hc with hc1 hc2
            cases hc1
        rw [hdocs] at hd
        rcases List.mem_append.1 hd with hmem | hmem
        · exact Or.inl hmem
        · have hdd : d = dd := by simpa using hmem
          subst hdd
          exact Or.inr (Weather_create_city_ne hc)

/-- C9 (amended): the Validation Layer itself admits an empty `city`; it is
the store's write-time validation (`required` on the mongoose path, which
rejects empty strings) that keeps empty-city records out, so every record
the store persists — in particular everything POST /weather adds — has a
non-empty city. -/
theorem claim_C9_persisted_city (st : StoreState) (env : Env) (now : Int)
    (provider : String → ProviderData) (body : List (String × Json)) :
    (∀ r, r.city = "" → Weather_create st now r = (none, st))
    ∧ (∀ r d st2, Weather_create st now r = (some d, st2) → d.data.city ≠ "")
    ∧ (∀ d ∈ ((postWeather st env now provider body).2).docs,
        d ∈ st.docs ∨ d.data.city ≠ "") := by
  refine ⟨?_, fun r d st2 hc => Weather_create_city_ne hc, ?_⟩
  · intro r hr
    have hreq : mongooseRequiredOk r = false := by
      unfold mongooseRequiredOk
      simp [hr]
    unfold Weather_create
    rw [hreq]
    simp
  · intro d hd
    simp only [postWeather] at hd
    by_cases hman : manualFlag body = true
    · rw [if_pos hman] at hd
      exact createFrom_docs_superset st now _ d hd
    · rw [if_neg hman] at hd
      cases hkey : env.apiKey with
      | none =>
        rw [hkey] at hd
        exact Or.inl hd
      | some key =>
        rw [hkey] at hd
        exact createFrom_docs_superset st now _ d hd

/-- Witness for C9: the store rejects the empty-city record and a manual
create only adds non-empty-city documents. -/
theorem claim_C9_persisted_city_witness :
    Weather_create ⟨[], 0⟩ 3 emptyCityRec = (none, ⟨[], 0⟩)
    ∧ (∀ d ∈ ((postWeather ⟨[], 0⟩ ⟨none, none⟩ 3 (fun _ => provBare)
        sampleBody).2).docs, d ∈ ([] : List StoredRecord) ∨ d.data.city ≠ "") := by
  have h := claim_C9_persisted_city ⟨[], 0⟩ ⟨none, none⟩ 3
    (fun _ => provBare) sampleBody
  exact ⟨h.1 emptyCityRec rfl, h.2.2⟩

/-- A record returned by the parse always carries a country of length at
least 2 (so it passes the store's `required` check on `country`). -/
theorem weatherSchema_parse_country_ge {j : Json} {r : WeatherRecord}
    (h : weatherSchema_parse j = .ok r) : 2 ≤ r.country.length := by
  cases j with
  | obj fs =>
    revert h
    simp only [weatherSchema_parse]
    split
    · rename_i c1 c2 c3 c4 c5 c6 c7 c8 c9 c10 c11 h1 h2 h3 h4 h5 h6 h7 h8 h9 h10 h11
      intro h
      injection h with h
      subst h
      exact (jCountry_eq_some.1 h2).2
    · intro h
      cases h
  | null => simp [weatherSchema_parse] at h
  | bool b => simp [weatherSchema_parse] at h
  | num q => simp [weatherSchema_parse] at h
  | str s => simp [weatherSchema_parse] at h
  | date ms => simp [weatherSchema_parse] at h
  | arr xs => simp [weatherSchema_parse] at h

/-- C1: For every manual payload P satisfying the WeatherRecord schema
(in particular, with the data model's non-empty city), POST /weather with
a truthy `manual` flag validates P, persists it, and responds 201 with a
record whose fields equal P plus the store-assigned id and the
createdAt/updatedAt timestamps. -/
theorem claim_C1_manual_create (st : StoreState) (env : Env) (now : Int)
    (provider : String → ProviderData) (body : List (String × Json))
    (r : WeatherRecord)
    (hman : manualFlag body = true)
    (hparse : weatherSchema_parse
      (.obj (body.filter (fun kv => kv.1 != "manual"))) = .ok r)
    (hcity : r.city ≠ "") :
    postWeather st env now provider body =
      (.created ⟨st.nextId, r, now, now⟩,
       ⟨st.docs ++ [⟨st.nextId, r, now, now⟩], st.nextId + 1⟩)
    ∧ (HandlerResult.created ⟨st.nextId, r, now, now⟩).status = 201 := by
  have hlen := weatherSchema_parse_country_ge hparse
  have hcountry : r.country ≠ "" := by
    intro he
    rw [he] at hlen
    have h0 : ("" : String).length = 0 := rfl
    omega
  have hreq : mongooseRequiredOk r = true := by
    unfold mongooseRequiredOk
    simp [hcity, hcountry]
  refine ⟨?_, rfl⟩
  simp only [postWeather, if_pos hman]
  unfold createFrom
  simp only [hparse]
  unfold Weather_create
  rw [if_pos hreq]

/-- Witness for C1: the manual sample body is created verbatim. -/
theorem claim_C1_manual_create_witness :
    postWeather ⟨[], 5⟩ ⟨none, none⟩ 7 (fun _ => provBare) sampleBody =
      (.created ⟨5, sampleRec, 7, 7⟩, ⟨[⟨5, sampleRec, 7, 7⟩], 6⟩)
    ∧ (HandlerResult.created ⟨5, sampleRec, 7, 7⟩).status = 201 := by
  have h := claim_C1_manual_create ⟨[], 5⟩ ⟨none, none⟩ 7 (fun _ => provBare)
    sampleBody sampleRec (by decide) (by decide) (by decide)
  simpa using h

/-- C5: For every well-formed id and every full valid record body (with
the data model's non-empty city), PUT /weather/:id validates the body then
replaces the stored document's data: when a document with that id exists
it responds 200 with a record whose field values are exactly the submitted
body's (the server-managed id and createdAt preserved, updatedAt
refreshed), and when no document with that id exists it responds 404. -/
theorem claim_C5_put_replaces (st : StoreState) (now : Int) (idStr : String)
    (id : Nat) (body : Json) (r : WeatherRecord)
    (hid : parseObjectId idStr = some id)
    (hparse : weatherSchema_parse body = .ok r)
    (hcity : r.city ≠ "") :
    (∀ d0, st.docs.find? (fun d => d.id == id) = some d0 →
      putWeatherById st now idStr body =
        (.doc { d0 with data := r, updatedAt := now },
         { st with docs := (st.docs.map (fun x =>
            if x.id == id then { d0 with data := r, updatedAt := now }
            else x)) })
      ∧ (HandlerResult.doc { d0 with data := r, updatedAt := now }).status = 200
      ∧ ({ d0 with data := r, updatedAt := now }).data = r
      ∧ ({ d0 with data := r, updatedAt := now }).id = d0.id
      ∧ ({ d0 with data := r, updatedAt := now }).createdAt = d0.createdAt)
    ∧ (st.docs.find? (fun d => d.id == id) = none →
      putWeatherById st now idStr body = (.failure .notFound, st)
      ∧ (HandlerResult.failure .notFound).status = 404) := by
  have hlen := weatherSchema_parse_country_ge hparse
  have hcountry : r.country ≠ "" := by
    intro he
    rw [he] at hlen
    have h0 : ("" : String).length = 0 := rfl
    omega
  have hreq : mongooseRequiredOk r = true := by
    unfold mongooseRequiredOk
    simp [hcity, hcountry]
  constructor
  · intro d0 hf
    refine ⟨?_, rfl, rfl, rfl, rfl⟩
    unfold putWeatherById
    simp only [hparse, hid]
    unfold Weather_findByIdAndUpdate
    rw [if_pos hreq]
    simp only [hf]
  · intro hf
    refine ⟨?_, rfl⟩
    unfold putWeatherById
    simp only [hparse, hid]
    unfold Weather_findByIdAndUpdate
    rw [if_pos hreq]
    simp only [hf]

/-- Witness for C5: replacing document 0 of a one-document store, and a
404 on an absent id. -/
theorem claim_C5_put_replaces_witness :
    putWeatherById ⟨[⟨0, recA, 1, 1⟩], 1⟩ 9 idStr0 putBodyB =
      (.doc ⟨0, recB, 1, 9⟩, ⟨[⟨0, recB, 1, 9⟩], 1⟩)
    ∧ putWeatherById ⟨[⟨0, recA, 1, 1⟩], 1⟩ 9 idStr2 putBodyB =
      (.failure .notFound, ⟨[⟨0, recA, 1, 1⟩], 1⟩) := by
  have h := claim_C5_put_replaces ⟨[⟨0, recA, 1, 1⟩], 1⟩ 9 idStr0 0 putBodyB
    recB (by decide) (by decide) (by decide)
  have h2 := claim_C5_put_replaces ⟨[⟨0, recA, 1, 1⟩], 1⟩ 9 idStr2 2 putBodyB
    recB (by decide) (by decide) (by decide)
  have h3 := (h.1 ⟨0, recA, 1, 1⟩ (by decide)).1
  exact ⟨h3.trans (by decide), (h2.2 (by decide)).1⟩

/-- `find?` over a decomposition whose prefix has no match returns the
middle element. -/
theorem find?_eq_of_decomp {α : Type} (p : α → Bool) (l1 l2 : List α) (a : α)
    (h1 : ∀ b ∈ l1, ¬ p b = true) (ha : p a = true) :
    (l1 ++ a :: l2).find? p = some a := by
  induction l1 with
  | nil =>
    rw [List.nil_append]
    simp only [List.find?_cons, ha]
  | cons b t ih =>
    have hb : ¬ p b = true := h1 b (by simp)
    have hb2 : p b = false := by
      rcases hpb : p b with _ | _
      · rfl
      · exact absurd hpb hb
    rw [List.cons_append]
    simp only [List.find?_cons, hb2]
    exact ih (fun x hx => h1 x (by simp [hx]))

/-- C6: For every well-formed id, DELETE /weather/:id removes exactly the
one document with that id, leaving all sibling documents in place, and
responds with deleted-id; when no document with that id exists it responds
404; after a successful delete (with store ids unique), GET /weather/:id
for the same id string responds 404. -/
theorem claim_C6_delete (st : StoreState) (idStr : String) (id : Nat)
    (hid : parseObjectId idStr = some id)
    (hnd : (st.docs.map (fun d => d.id)).Nodup) :
    (∀ d0, st.docs.find? (fun d => d.id == id) = some d0 →
      ∃ pre post, st.docs = pre ++ d0 :: post
        ∧ deleteWeatherById st idStr =
            (.deletedOk d0.id, { st with docs := pre ++ post })
        ∧ d0.id = id
        ∧ (HandlerResult.deletedOk d0.id).status = 200
        ∧ (∀ x ∈ st.docs, x.id ≠ id → x ∈ pre ++ post)
        ∧ getWeatherById { st with docs := pre ++ post } idStr =
            .failure .notFound
        ∧ (HandlerResult.failure .notFound).status = 404)
    ∧ (st.docs.find? (fun d => d.id == id) = none →
      deleteWeatherById st idStr = (.failure .notFound, st)
      ∧ (HandlerResult.failure .notFound).status = 404) := by
  constructor
  · intro d0 hf
    have hmem : d0 ∈ st.docs := List.mem_of_find?_eq_some hf
    have hp := List.find?_some hf
    have hpid : d0.id = id := by simpa using hp
    obtain ⟨a, l1, l2, hl1, hpa, hdec, herase⟩ :=
      List.exists_of_eraseP (p := fun d => d.id == id) hmem hp
    have hfa : st.docs.find? (fun d => d.id == id) = some a := by
      rw [hdec]
      exact find?_eq_of_decomp _ l1 l2 a hl1 hpa
    have had : a = d0 := by
      rw [hf] at hfa
      injection hfa with hfa
      exact hfa.symm
    subst had
    refine ⟨l1, l2, hdec, ?_, hpid, rfl, ?_, ?_, rfl⟩
    · unfold deleteWeatherById
      simp only [hid]
      unfold Weather_findByIdAndDelete
      simp only [hf, herase]
    · intro x hx hne
      rw [hdec] at hx
      rcases List.mem_append.1 hx with hx1 | hx2
      · exact List.mem_append.2 (Or.inl hx1)
      · rcases List.mem_cons.1 hx2 with hx3 | hx4
        · subst hx3
          exact absurd hpid hne
        · exact List.mem_append.2 (Or.inr hx4)
    · have hnone : (l1 ++ l2).find? (fun d => d.id == id) = none := by
        rw [List.find?_eq_none]
        intro x hx
        rcases List.mem_append.1 hx with hx1 | hx2
        · exact hl1 x hx1
        · rw [hdec] at hnd
          simp only [List.map_append, List.map_cons] at hnd
          have hnotin := (List.nodup_append.1 hnd).2.1
          have hnotin2 : a.id ∉ l2.map (fun d => d.id) :=
            (List.nodup_cons.1 hnotin).1
          intro hcon
          apply hnotin2
          have : x.id = a.id := by
            have hxid : x.id = id := by simpa using hcon
            rw [hxid, hpid]
          rw [← this]
          exact List.mem_map_of_mem _ hx2
      unfold getWeatherById
      simp only [hid]
      unfold Weather_findById
      simp only [hnone]
  · intro hf
    refine ⟨?_, rfl⟩
    unfold deleteWeatherById
    simp only [hid]
    unfold Weather_findByIdAndDelete
    simp only [hf]

/-- Witness for C6: deleting id 0 from a two-document store keeps the
sibling and makes a subsequent GET for the same id a 404; deleting an
absent id answers 404. -/
theorem claim_C6_delete_witness :
    deleteWeatherById stAB idStr2 = (.failure .notFound, stAB)
    ∧ deleteWeatherById stAB idStr0 =
        (.deletedOk 0, ⟨[⟨1, recB, 2, 2⟩], 2⟩)
    ∧ getWeatherById ⟨[⟨1, recB, 2, 2⟩], 2⟩ idStr0 = .failure .notFound := by
  have h2 := (claim_C6_delete stAB idStr2 2 (by decide) (by decide)).2
    (by decide)
  refine ⟨h2.1, by decide, by decide⟩

/-- C4 counterexample: MongoDB's `limit(0)` means no limit, so with three
stored records `GET /weather?limit=0` returns all three documents — the
claim's "at most `limit` entries" bound fails at limit 0. -/
theorem claim_C4_counterexample :
    getWeatherList st3 none (some 0) =
      .docList [⟨2, recC, 3, 3⟩, ⟨1, recB, 2, 2⟩, ⟨0, recA, 1, 1⟩]
    ∧ ¬ ((listQuery st3.docs none ((some 0 : Option Nat).getD 50)).length
          ≤ (some 0 : Option Nat).getD 50) := by
  decide

/-- C4 (amended): For every stored collection and every call to the list
endpoint, the result is ordered by fetchedAt descending and contains only
records matching the city filter when a non-empty one is given; it
contains at most `limit` entries when the limit is positive (the driver
treats limit 0 as no limit), with `limit` defaulting to 50; in
particular, with 3 or more records stored and no filter, limit 2 returns
exactly 2 entries. -/
theorem claim_C4_list (st : StoreState) (cityQ : Option String)
    (limitQ : Option Nat) :
    getWeatherList st cityQ limitQ =
      .docList (listQuery st.docs cityQ (limitQ.getD 50))
    ∧ (HandlerResult.docList (listQuery st.docs cityQ (limitQ.getD 50))).status
        = 200
    ∧ (listQuery st.docs cityQ (limitQ.getD 50)).Pairwise
        (fun a b => b.data.fetchedAt ≤ a.data.fetchedAt)
    ∧ (∀ c, cityQ = some c → c ≠ "" →
        ∀ d ∈ listQuery st.docs cityQ (limitQ.getD 50), d.data.city = c)
    ∧ (limitQ.getD 50 ≠ 0 →
        (listQuery st.docs cityQ (limitQ.getD 50)).length ≤ limitQ.getD 50)
    ∧ (cityQ = none → limitQ = some 2 → 3 ≤ st.docs.length →
        (listQuery st.docs cityQ (limitQ.getD 50)).length = 2) := by
  haveI htot : IsTotal StoredRecord
      (fun a b => b.data.fetchedAt ≤ a.data.fetchedAt) :=
    ⟨fun a b => Int.le_total _ _⟩
  haveI htr : IsTrans StoredRecord
      (fun a b => b.data.fetchedAt ≤ a.data.fetchedAt) :=
    ⟨fun a b c h1 h2 => le_trans h2 h1⟩
  refine ⟨rfl, rfl, ?_, ?_, ?_, ?_⟩
  · unfold listQuery
    by_cases hl : limitQ.getD 50 = 0
    · rw [if_pos hl]
      exact List.sorted_insertionSort _ _
    · rw [if_neg hl]
      exact List.Pairwise.sublist (List.take_sublist _ _)
        (List.sorted_insertionSort _ _)
  · rintro c rfl hne d hd
    unfold listQuery at hd
    have hcne : (c == "") = false := by
      rcases hbe : (c == "") with _ | _
      · rfl
      · exact absurd (by simpa using hbe) hne
    simp only [hcne, Bool.false_eq_true, if_false] at hd
    have hd2 : d ∈ (st.docs.filter (fun d => d.data.city == c)).insertionSort
        (fun a b => b.data.fetchedAt ≤ a.data.fetchedAt) := by
      by_cases hl : limitQ.getD 50 = 0
      · rw [if_pos hl] at hd
        exact hd
      · rw [if_neg hl] at hd
        exact List.take_subset _ _ hd
    have hd3 := (List.perm_insertionSort _ _).mem_iff.1 hd2
    have hd4 := List.mem_filter.1 hd3
    simpa using hd4.2
  · intro hne
    unfold listQuery
    rw [if_neg hne]
    exact List.length_take_le _ _
  · rintro rfl rfl h3
    unfold listQuery
    rw [if_neg (by decide : ¬ ((some 2 : Option Nat).getD 50 = 0))]
    simp only [Option.getD_some, List.length_take]
    have hp2 := (List.perm_insertionSort
      (fun a b : StoredRecord => b.data.fetchedAt ≤ a.data.fetchedAt)
      st.docs).length_eq
    omega

/-- Witness for C4: on a three-document store with no filter and limit 2,
the endpoint returns exactly the two records with latest fetchedAt, newest
first. -/
theorem claim_C4_list_witness :
    getWeatherList st3 none (some 2) =
      .docList [⟨2, recC, 3, 3⟩, ⟨1, recB, 2, 2⟩]
    ∧ (listQuery st3.docs none 2).length = 2 := by
  have h := claim_C4_list st3 none (some 2)
  have hlen := h.2.2.2.2.2 rfl rfl (by decide)
  exact ⟨by decide, hlen⟩

end WeatherApp
